import Mathlib

/-!
Verification development for the quing terminal audio player
(shallow embedding of `src/playback.rs`, `src/in_out.rs`, `src/serde.rs`).

Conventions of the embedding:
* Rust `usize` indices become `Nat`; `isize` repeat counters become `Int`.
* `Cell`-based interior mutability becomes explicit state passing: a method
  that mutates through a `Cell` is a function `State → State` (or
  `State → Result × State`).
* `f32` volume values are modelled as exact rationals `Rat`; the operations
  involved (clamp, negation via `old + 2 * (-old)`, constant steps) are the
  ones the source performs.
* Fallible Rust functions returning `Result<T, E>` become `Except E T`.
* External collaborators (the rodio sink, the terminal, the filesystem, the
  `fastrand` generator, the signal channel) are modelled as oracles passed
  in as function arguments; durations are in milliseconds.
-/

namespace Quing

/-- Errors of `Vec`-like structures, from `src/lib.rs` (`enum VectorError`):
`OutOfBounds` and `Empty`. -/
inductive VectorError where
  | OutOfBounds
  | Empty
deriving DecidableEq, Repr

/-- Channel errors, from `src/lib.rs` (`enum ChannelError`). -/
inductive ChannelError where
  | Timeout
  | Empty
  | Disconnect
deriving DecidableEq, Repr

/-- The program error type, from `src/lib.rs` (`enum Error`).  Payloads of
external error kinds (io, decoder, …) carry no information the claims need,
so those constructors are nullary here. -/
inductive Error where
  | Io
  | Decode
  | Play
  | Stream
  | Deserialise
  | Variable
  | Vector (e : VectorError)
  | Channel (e : ChannelError)
deriving DecidableEq, Repr

/-- Exit states of the playback functions, from `src/playback.rs`
(`enum ControlFlow`): `Break`, `Skip` (level-1 skip), `SkipSkip`
(level-2 skip), `Default`. -/
inductive ControlFlow where
  | Break
  | Skip
  | SkipSkip
  | Default
deriving DecidableEq, Repr

/-- One playable unit, from `src/playback.rs` (`struct Track`):
a file path and a repeat counter (`Cell<isize>`). -/
structure Track where
  file_path : String
  repeats : Int
deriving DecidableEq, Repr

/-- A collection of tracks, from `src/playback.rs` (`struct Playlist`):
the index map `track_map : Cell<Vec<usize>>`, the shuffle-enabled flag,
the stored `length`, the tracks, and the repeat counter. -/
structure Playlist where
  track_map : List Nat
  shuffle : Bool
  length : Nat
  tracks : List Track
  repeats : Int
deriving DecidableEq, Repr

/-- The player state, from `src/playback.rs` (`struct Playhandle`).  The
`io_handle` field (audio sink and control thread) is an external
collaborator and is not part of the state the claims quantify over. -/
structure Playhandle where
  current_track_index : Nat
  current_playlist_index : Nat
  has_reached_current_playlist_end : Bool
  has_reached_entire_end : Bool
  playlists : List Playlist
  volume : Rat
  paused : Bool
deriving DecidableEq, Repr

/-- The value a `Playlist` slot decodes to when indexed out of range; used
only as the default of `List.getD` in spots where the source uses
`get_unchecked` under an already-established bound. -/
def playlistDefault : Playlist :=
  { track_map := [], shuffle := false, length := 0, tracks := [], repeats := 0 }

/-- `Playlist::tracks_count` (`src/playback.rs` lines 116-119): `tracks.len()`. -/
def Playlist.tracks_count (p : Playlist) : Nat :=
  p.tracks.length

/-- `Playlist::tracks_is_empty` (`src/playback.rs` lines 128-130). -/
def Playlist.tracks_is_empty (p : Playlist) : Bool :=
  p.tracks_count == 0

/-- `Playlist::shuffle_can` (`src/playback.rs` lines 134-136). -/
def Playlist.shuffle_can (p : Playlist) : Bool :=
  p.shuffle

/-- `Playlist::repeats_can` (`src/playback.rs` lines 294-297):
`self.repeats.get() != 0`. -/
def Playlist.repeats_can (p : Playlist) : Bool :=
  p.repeats != 0

/-- Rust's 64-bit `isize` arithmetic in release builds: reduce an
unbounded integer into the representable range `[-2^63, 2^63)`, wrapping
on overflow (a debug build would panic instead).  On in-range values that
do not overflow this is the identity. -/
def wrapIsize (x : Int) : Int :=
  (x + 2 ^ 63) % 2 ^ 64 - 2 ^ 63

/-- `Playlist::repeats_update` (`src/playback.rs` lines 301-307):
decrement the repeat counter.  The counter is an `isize`, so the
subtraction `old - 1` wraps at `-2^63` in release builds. -/
def Playlist.repeats_update (p : Playlist) : Playlist :=
  { p with repeats := wrapIsize (p.repeats - 1) }

/-- `Track::repeats_can` (`src/playback.rs` lines 429-432). -/
def Track.repeats_can (t : Track) : Bool :=
  t.repeats != 0

/-- `Track::repeats_update` (`src/playback.rs` lines 436-442): the same
wrapping `isize` decrement as `Playlist::repeats_update`. -/
def Track.repeats_update (t : Track) : Track :=
  { t with repeats := wrapIsize (t.repeats - 1) }

/-- Applying `Playlist::repeats_update` `n` times. -/
def Playlist.repeats_update_iter (p : Playlist) : Nat → Playlist
  | 0 => p
  | n + 1 => (p.repeats_update_iter n).repeats_update

/-- Applying `Track::repeats_update` `n` times. -/
def Track.repeats_update_iter (t : Track) : Nat → Track
  | 0 => t
  | n + 1 => (t.repeats_update_iter n).repeats_update

/-- `Playhandle::playlists_count` (`src/playback.rs` lines 466-469). -/
def Playhandle.playlists_count (h : Playhandle) : Nat :=
  h.playlists.length

/-- The playlist at index `i`; stands for the source's
`self.playlists.get_unchecked(i)`, which is only ever evaluated under an
established bound `i < playlists.len()`. -/
def Playhandle.playlistAt (h : Playhandle) (i : Nat) : Playlist :=
  h.playlists.getD i playlistDefault

/-- `Playhandle::tracks_count` (`src/playback.rs` lines 479-485).  The
source indexes `self.playlists` with `self.track_index_get_unchecked()`
(the track pointer), not the playlist pointer; `get_unchecked` out of
bounds is undefined behaviour, modelled as `none`. -/
def Playhandle.tracks_count (h : Playhandle) : Option Nat :=
  (h.playlists[h.current_track_index]?).map Playlist.tracks_count

/-- `Playhandle::playlist_index_check` (`src/playback.rs` lines 586-590). -/
def Playhandle.playlist_index_check (h : Playhandle) : Option VectorError :=
  if h.playlists_count ≤ h.current_playlist_index then some VectorError.OutOfBounds else none

/-- `Playhandle::playlist_index_get` (`src/playback.rs` lines 617-620). -/
def Playhandle.playlist_index_get (h : Playhandle) : Except VectorError Nat :=
  match h.playlist_index_check with
  | some e => .error e
  | none => .ok h.current_playlist_index

/-- `Playhandle::track_index_check` (`src/playback.rs` lines 600-613). -/
def Playhandle.track_index_check (h : Playhandle) : Option VectorError :=
  match h.playlist_index_get with
  | .error e => some e
  | .ok playlist_index =>
    if (h.playlistAt playlist_index).tracks_count ≤ h.current_track_index then
      some VectorError.OutOfBounds
    else none

/-- `Playhandle::track_index_reset` (`src/playback.rs` lines 716-718):
set the track pointer to `0` (the source's `track_index_set_unchecked`
additionally clears the audio sink, an external effect). -/
def Playhandle.track_index_reset (h : Playhandle) : Playhandle :=
  { h with current_track_index := 0 }

/-- `Playhandle::playlist_index_reset` (`src/playback.rs` lines 707-712):
reset the track pointer, then the playlist pointer. -/
def Playhandle.playlist_index_reset (h : Playhandle) : Playhandle :=
  { h.track_index_reset with current_playlist_index := 0 }

/-- `Playhandle::playlist_index_try_set` (`src/playback.rs` lines 657-672).
The track pointer is reset to `0` first, unconditionally; then the proposed
playlist index is computed and bounds-checked; out of bounds sets
`has_reached_entire_end` and reports `OutOfBounds` without writing the
playlist pointer. -/
def Playhandle.playlist_index_try_set (h : Playhandle) (setter : Nat → Nat) :
    Except VectorError Unit × Playhandle :=
  let h := h.track_index_reset
  let old_index := h.current_playlist_index
  let new_index := setter old_index
  if h.playlists_count ≤ new_index then
    (.error VectorError.OutOfBounds, { h with has_reached_entire_end := true })
  else
    (.ok (), { h with current_playlist_index := new_index })

/-- `Playhandle::track_index_try_set` (`src/playback.rs` lines 681-703).
The proposed track index is computed, the playlist pointer is validated,
and the proposal is bounds-checked against the current playlist's track
count; out of bounds sets `has_reached_current_playlist_end` and reports
`OutOfBounds` without writing the track pointer. -/
def Playhandle.track_index_try_set (h : Playhandle) (setter : Nat → Nat) :
    Except VectorError Unit × Playhandle :=
  let old_index := h.current_track_index
  let new_index := setter old_index
  match h.playlist_index_get with
  | .error e => (.error e, h)
  | .ok playlist_index =>
    let maximum := (h.playlistAt playlist_index).tracks_count
    if maximum ≤ new_index then
      (.error VectorError.OutOfBounds, { h with has_reached_current_playlist_end := true })
    else
      (.ok (), { h with current_track_index := new_index })

/-- `Playhandle::playlist_has_ended` (`src/playback.rs` lines 520-523):
`Cell::take` of the one-shot flag — read it and clear it. -/
def Playhandle.playlist_has_ended (h : Playhandle) : Bool × Playhandle :=
  (h.has_reached_current_playlist_end, { h with has_reached_current_playlist_end := false })

/-- `Playhandle::playlists_have_ended` (`src/playback.rs` lines 531-534). -/
def Playhandle.playlists_have_ended (h : Playhandle) : Bool × Playhandle :=
  (h.has_reached_entire_end, { h with has_reached_entire_end := false })

/-- The volume step; `const STEP: f32 = 0.025` in `src/playback.rs` line 25. -/
def STEP : Rat := 25 / 1000

/-- Rust's `f32::clamp(min, max)`. -/
def ratClamp (x lo hi : Rat) : Rat :=
  if x < lo then lo else if hi < x then hi else x

/-- `Playhandle::volume_get_raw` (`src/playback.rs` lines 769-772). -/
def Playhandle.volume_get_raw (h : Playhandle) : Rat :=
  h.volume

/-- `Playhandle::volume_get` (`src/playback.rs` lines 760-763):
the raw volume clamped to `[0.0, 2.0]`. -/
def Playhandle.volume_get (h : Playhandle) : Rat :=
  ratClamp h.volume_get_raw 0 2

/-- `Playhandle::volume_set_raw` (`src/playback.rs` lines 791-794). -/
def Playhandle.volume_set_raw (h : Playhandle) (map : Rat → Rat) : Playhandle :=
  { h with volume := map h.volume_get_raw }

/-- `Playhandle::volume_reset` (`src/playback.rs` lines 785-787). -/
def Playhandle.volume_reset (h : Playhandle) : Playhandle :=
  h.volume_set_raw (fun _ => 1)

/-- `Playhandle::volume_mute` (`src/playback.rs` lines 802-804):
`old + 2.0 * -old`, an exact negation of the raw volume. -/
def Playhandle.volume_mute (h : Playhandle) : Playhandle :=
  h.volume_set_raw (fun old => old + 2 * (-old))

/-- `Playhandle::volume_increment` (`src/playback.rs` lines 815-817). -/
def Playhandle.volume_increment (h : Playhandle) : Playhandle :=
  h.volume_set_raw (fun old => old + STEP)

/-- `Playhandle::volume_decrement` (`src/playback.rs` lines 828-830). -/
def Playhandle.volume_decrement (h : Playhandle) : Playhandle :=
  h.volume_set_raw (fun old => old - STEP)

/-- The four volume-mutating signals dispatched by the playback loop
(`src/playback.rs` lines 399-408). -/
inductive VolOp where
  | increase
  | decrease
  | mute
  | reset
deriving DecidableEq, Repr

/-- Dispatch of one volume signal (`src/playback.rs` lines 400-405). -/
def Playhandle.volume_apply (h : Playhandle) : VolOp → Playhandle
  | .increase => h.volume_increment
  | .decrease => h.volume_decrement
  | .mute => h.volume_mute
  | .reset => h.volume_reset

/-- A sequence of volume operations applied in order. -/
def Playhandle.volume_apply_seq (h : Playhandle) (ops : List VolOp) : Playhandle :=
  ops.foldl Playhandle.volume_apply h

/-- The backward skip arithmetic of `Track::play_through`
(`src/playback.rs` line 353): `|old| old - (old > 0) as usize`. -/
def decrement (old : Nat) : Nat :=
  old - (if 0 < old then 1 else 0)

/-- The forward skip arithmetic of `Track::play_through`
(`src/playback.rs` line 354): `|old| old + 1`. -/
def increment (old : Nat) : Nat :=
  old + 1

/-- `n`-fold application of a pointer setter. -/
def iterateSetter (f : Nat → Nat) : Nat → Nat → Nat
  | 0, x => x
  | k + 1, x => iterateSetter f k (f x)

/-- The skip branch of `Track::play_through` (`src/playback.rs` lines
369-386): choose `increment` or `decrement` from the signal's direction and
apply it to the track pointer (track-scoped skip) or the playlist pointer
(playlist-scoped skip).  No elapsed-time condition occurs in this branch:
the accumulated `whole_elapsed_time` of the loop is not consulted. -/
def Track.handle_skip (is_track_skip is_next_skip : Bool) (data : Playhandle) :
    Except VectorError Unit × Playhandle :=
  let setter := if is_next_skip then increment else decrement
  if is_track_skip then data.track_index_try_set setter
  else data.playlist_index_try_set setter

/-- The control signals of `src/in_out.rs` (`enum Signal`, lines 200-221). -/
inductive Signal where
  | TrackNext
  | TrackBack
  | Play
  | PlaylistNext
  | PlaylistBack
  | Exit
  | VolumeIncrease
  | VolumeDecrease
  | Mute
deriving DecidableEq, Repr

/-- The playback-loop instructions of `src/in_out.rs`
(`enum Instruction`, lines 181-196). -/
inductive Instruction where
  | ExitQuit
  | NextNone
  | BackNone
  | NextNext
  | BackBack
  | HoldNoop
deriving DecidableEq, Repr

/-- The signal-to-instruction step of `UnwrappedTrack::play`
(`src/in_out.rs` lines 575-608).  `elapsed_ms` is the elapsed playback time
of the current track in milliseconds; the source computes
`under_threshhold = elapsed <= Duration::from_secs(2)` (line 575), i.e. the
threshold is two seconds, inclusive.  `none` stands for the match arms that
stay in the loop (timeout ticks, pause toggling, volume updates). -/
def UnwrappedTrack.signal_instruction (elapsed_ms : Nat) :
    Signal → Option Instruction
  | .PlaylistNext => some .NextNext
  | .PlaylistBack =>
    if elapsed_ms ≤ 2000 then some .BackBack else some .HoldNoop
  | .Exit => some .ExitQuit
  | .TrackNext => some .NextNone
  | .TrackBack =>
    if elapsed_ms ≤ 2000 then some .BackNone else some .HoldNoop
  | _ => none

/-- The instruction handling of `UnwrappedPlaylist::play` (`src/in_out.rs`
lines 480-489) restricted to its effect on `track_index`: `BackNone`
subtracts `(track_index > 0) as usize`, `NextNone` adds one, `HoldNoop`
leaves the pointer alone; anything else returns to the caller (`none`). -/
def UnwrappedPlaylist.apply_instruction (track_index : Nat) :
    Instruction → Option Nat
  | .BackNone => some (track_index - (if 0 < track_index then 1 else 0))
  | .NextNone => some (track_index + 1)
  | .HoldNoop => some track_index
  | _ => none

/-- Rust's `Vec::swap` on an index list.  Every use below is under
established bounds `i, j < l.length` (out of range, `List.set` is the
identity where `Vec::swap` would panic). -/
def listSwap (l : List Nat) (i j : Nat) : List Nat :=
  (l.set i (l.getD j 0)).set j (l.getD i 0)

/-- Modelled from the spec: `fastrand::Rng::shuffle`, the external
random generator's own "Fisher–Yates-style in-place permutation" (spec
§4.5), called by `Playlist::shuffle` before its explicit swap loop
(`src/playback.rs` line 189).  The generator is the oracle `g`; step `i`
swaps position `i` with a position in `0..=i`. -/
def rngShuffle (g : Nat → Nat) (l : List Nat) : List Nat :=
  (List.range l.length).foldl (fun m i => listSwap m i (g i % (i + 1))) l

/-- `Playlist::shuffle` (`src/playback.rs` lines 184-201): take
`track_map`, run the generator's own shuffle over it, then for each
`index` in `0..length` swap `index` with a random position in `0..=index`
and with a random position in `index..length`, and store the map back.
The single stateful generator is modelled by the oracle `g`, its draws
indexed by call site (`3*i`, `3*i+1`, `3*i+2`); `usize(0..=index)` becomes
`g _ % (index+1)` and `usize(index..length)` becomes
`index + g _ % (length - index)`, each landing in the source range.
(Named `shuffle'` because the Rust field `shuffle` already takes the name
`Playlist.shuffle` in this embedding.) -/
def Playlist.shuffle' (g : Nat → Nat) (p : Playlist) : Playlist :=
  let map := rngShuffle (fun n => g (3 * n)) p.track_map
  let map := (List.range p.length).foldl
    (fun m index =>
      listSwap (listSwap m index (g (3 * index + 1) % (index + 1))) index
        (index + g (3 * index + 2) % (p.length - index)))
    map
  { p with track_map := map }

/-- A track descriptor, from `src/serde.rs` (`struct SerDeTrack`). -/
structure SerDeTrack where
  file : String
  time : Option Int
deriving DecidableEq, Repr

/-- A playlist descriptor, from `src/serde.rs` (`struct SerDePlaylist`). -/
structure SerDePlaylist where
  song : List SerDeTrack
  time : Option Int
  vary : Option Bool
deriving DecidableEq, Repr

/-- The failure modes of `fmt_path` (`src/utilities.rs` lines 20-48): the
only error constructors that function can produce are `Error::Variable`
(from `std::env::var`) and `Error::Io` (from `Path::canonicalize`). -/
inductive FmtPathError where
  | ioError
  | varError
deriving DecidableEq, Repr

/-- The injection of a `fmt_path` failure into `Error` performed by the
`?` operator at the call sites. -/
def FmtPathError.toError : FmtPathError → Error
  | .ioError => Error.Io
  | .varError => Error.Variable

/-- The environment/filesystem oracle standing for `fmt_path`
(`src/utilities.rs`): expansion and canonicalisation of a path string. -/
def FmtPath : Type :=
  String → Except FmtPathError String

/-- `TryFrom<SerDeTrack> for Track` (`src/playback.rs` lines 445-456):
format the file path, default the repeat counter to `0`. -/
def Track.tryFrom (fp : FmtPath) (t : SerDeTrack) : Except Error Track :=
  match fp t.file with
  | .error e => .error e.toError
  | .ok file_path => .ok { file_path := file_path, repeats := t.time.getD 0 }

/-- The `song.into_iter().enumerate().map(...).collect::<Result<Vec<_>>>()`
stage of `TryFrom<SerDePlaylist> for Playlist` (`src/playback.rs` lines
329-334): convert each track, pairing it with its index `i`, failing on
the first conversion error. -/
def tracksCollect (fp : FmtPath) : Nat → List SerDeTrack → Except Error (List (Nat × Track))
  | _, [] => .ok []
  | i, t :: rest =>
    match Track.tryFrom fp t with
    | .error e => .error e
    | .ok track =>
      match tracksCollect fp (i + 1) rest with
      | .error e => .error e
      | .ok l => .ok ((i, track) :: l)

/-- `TryFrom<SerDePlaylist> for Playlist` (`src/playback.rs` lines
310-340): convert the tracks, unzip the `(index, track)` pairs into
`track_map` and `tracks`, fail with `VectorError::Empty` when `track_map`
is empty, otherwise build the playlist with `shuffle = vary.unwrap_or(true)`,
`length = tracks.len()` and `repeats = time.unwrap_or_default()`. -/
def Playlist.tryFrom (fp : FmtPath) (sp : SerDePlaylist) : Except Error Playlist :=
  match tracksCollect fp 0 sp.song with
  | .error e => .error e
  | .ok tuple =>
    let track_map := tuple.unzip.1
    let tracks := tuple.unzip.2
    if track_map.isEmpty then .error (Error.Vector VectorError.Empty)
    else
      .ok { track_map := track_map
            shuffle := sp.vary.getD true
            length := tracks.length
            tracks := tracks
            repeats := sp.time.getD 0 }

/-- The oracle standing for the inner `Track::play_through` calls made by
`Playlist::play_through` (`src/playback.rs` line 152): call number `n`
yields the track's result together with the (arbitrary) transformation the
track's signal handling applied to the shared `Playhandle` state. -/
def TrackOracle : Type :=
  Nat → Except Error ControlFlow × (Playhandle → Playhandle)

/-- Control position inside `Playlist::play_through`: `loop` is the head
of the `while` loop (line 146), `after` is the code following the loop
(the repeat-or-advance logic, lines 166-175), reached by the loop
condition failing or by `break`. -/
inductive PTPhase where
  | loop
  | after
deriving DecidableEq, Repr

/-- Result of running the `Playlist::play_through` model under a fuel
bound: either the function returned (with the final state and the next
oracle cursor), or the fuel ran out. -/
inductive PlayOutcome where
  | finished (r : Except Error ControlFlow) (h : Playhandle) (oc : Nat)
  | fuelOut
deriving Repr

/-- Result of running the `Playhandle::all_playlists_play` model:
`panicked` marks the `ControlFlow::SkipSkip => unimplemented!()` branch
(`src/playback.rs` line 558). -/
inductive AllOutcome where
  | finished (r : Except Error ControlFlow) (h : Playhandle)
  | fuelOut
  | panicked
deriving Repr

/-- Store an updated playlist back into the handle; stands for the fact
that the `&self` playlist of `Playlist::play_through` aliases
`handle.playlists[idx]` through its `Cell` fields. -/
def Playhandle.playlistSet (h : Playhandle) (i : Nat) (pl : Playlist) : Playhandle :=
  { h with playlists := h.playlists.set i pl }

/-- `Playlist::play_through` (`src/playback.rs` lines 141-176), as a
fuel-bounded state function.  `idx` is the position of `self` inside
`handle.playlists` (fixed at call time by `all_playlists_play`); the
played playlist is read from and written back to that slot, since the
source mutates it through `Cell`s.  The inner `Track::play_through` calls
are the oracle; `g` supplies the random draws of `shuffle` (one stream
per call).  Loop body (lines 150-164): `Break` returns `Break`, `SkipSkip`
is demoted and returned as `Skip`, `Skip` and `Default` continue the loop,
`Err(Vector(OutOfBounds))` resets the track pointer and breaks, any other
error propagates.  After the loop (lines 166-175): while the playlist can
repeat, decrement the counter, reshuffle when requested, reset the track
pointer and re-enter the loop; otherwise advance the playlist pointer
(discarding its result) and return `Default`. -/
def Playlist.playThroughAux (oracle : TrackOracle) (g : Nat → Nat → Nat)
    (should_shuffle : Bool) (idx : Nat) :
    Nat → PTPhase → Nat → Playhandle → PlayOutcome
  | 0, _, _, _ => .fuelOut
  | fuel + 1, .loop, oc, h =>
    if h.track_index_check = none then
      match oracle oc with
      | (.ok .Break, f) => .finished (.ok .Break) (f h) (oc + 1)
      | (.ok .SkipSkip, f) => .finished (.ok .Skip) (f h) (oc + 1)
      | (.ok .Skip, f) =>
        Playlist.playThroughAux oracle g should_shuffle idx fuel .loop (oc + 1) (f h)
      | (.ok .Default, f) =>
        Playlist.playThroughAux oracle g should_shuffle idx fuel .loop (oc + 1) (f h)
      | (.error (.Vector .OutOfBounds), f) =>
        Playlist.playThroughAux oracle g should_shuffle idx fuel .after (oc + 1)
          ((f h).track_index_reset)
      | (.error (.Vector .Empty), f) =>
        .finished (.error (.Vector .Empty)) (f h) (oc + 1)
      | (.error .Io, f) => .finished (.error .Io) (f h) (oc + 1)
      | (.error .Decode, f) => .finished (.error .Decode) (f h) (oc + 1)
      | (.error .Play, f) => .finished (.error .Play) (f h) (oc + 1)
      | (.error .Stream, f) => .finished (.error .Stream) (f h) (oc + 1)
      | (.error .Deserialise, f) => .finished (.error .Deserialise) (f h) (oc + 1)
      | (.error .Variable, f) => .finished (.error .Variable) (f h) (oc + 1)
      | (.error (.Channel e), f) => .finished (.error (.Channel e)) (f h) (oc + 1)
    else
      Playlist.playThroughAux oracle g should_shuffle idx fuel .after oc h
  | fuel + 1, .after, oc, h =>
    let pl := h.playlistAt idx
    if pl.repeats_can then
      let pl := pl.repeats_update
      let pl := if should_shuffle then pl.shuffle' (g oc) else pl
      let h := (h.playlistSet idx pl).track_index_reset
      Playlist.playThroughAux oracle g should_shuffle idx fuel .loop oc h
    else
      .finished (.ok .Default) (h.playlist_index_try_set (fun old => old + 1)).2 oc

/-- Entry point of the `Playlist::play_through` model: start at the head
of the `while` loop. -/
def Playlist.play_through (oracle : TrackOracle) (g : Nat → Nat → Nat)
    (should_shuffle : Bool) (idx fuel oc : Nat) (h : Playhandle) : PlayOutcome :=
  Playlist.playThroughAux oracle g should_shuffle idx fuel .loop oc h

/-- `Playhandle::all_playlists_play` (`src/playback.rs` lines 541-566):
while the playlist pointer is in bounds, fetch the current playlist,
pre-shuffle it when requested and allowed, run its `play_through`
(the `?` operator propagates errors); `Break` returns `Break`, `Skip`
falls through, `SkipSkip` hits the `unimplemented!()` panic, `Default`
clears the terminal; then the two one-shot end flags are checked (with
Rust's short-circuiting `||`, so the second flag is only taken when the
first was false) and, when either was set, `Default` is returned. -/
def Playhandle.all_playlists_play (oracle : TrackOracle) (g : Nat → Nat → Nat)
    (should_shuffle : Bool) :
    Nat → Nat → Playhandle → AllOutcome
  | 0, _, _ => .fuelOut
  | fuel + 1, oc, h =>
    if h.playlist_index_check = none then
      let index := h.current_playlist_index
      let playlist := h.playlistAt index
      let shufflable := should_shuffle && playlist.shuffle_can
      let h1 := if shufflable then h.playlistSet index (playlist.shuffle' (g oc)) else h
      match Playlist.playThroughAux oracle g shufflable index fuel .loop oc h1 with
      | .fuelOut => .fuelOut
      | .finished (.error e) h' _ => .finished (.error e) h'
      | .finished (.ok .Break) h' _ => .finished (.ok .Break) h'
      | .finished (.ok .SkipSkip) _ _ => .panicked
      | .finished (.ok .Skip) h' oc' =>
        if h'.playlist_has_ended.1 then .finished (.ok .Default) h'.playlist_has_ended.2
        else if h'.playlist_has_ended.2.playlists_have_ended.1 then
          .finished (.ok .Default) h'.playlist_has_ended.2.playlists_have_ended.2
        else
          Playhandle.all_playlists_play oracle g should_shuffle fuel oc'
            h'.playlist_has_ended.2.playlists_have_ended.2
      | .finished (.ok .Default) h' oc' =>
        if h'.playlist_has_ended.1 then .finished (.ok .Default) h'.playlist_has_ended.2
        else if h'.playlist_has_ended.2.playlists_have_ended.1 then
          .finished (.ok .Default) h'.playlist_has_ended.2.playlists_have_ended.2
        else
          Playhandle.all_playlists_play oracle g should_shuffle fuel oc'
            h'.playlist_has_ended.2.playlists_have_ended.2
    else
      .finished (.ok .Default) h

/-! Concrete sample states used by witnesses and counterexamples. -/

/-- A one-track sample track. -/
def trackA : Track :=
  { file_path := "a", repeats := 0 }

/-- A one-track sample playlist. -/
def playlistA : Playlist :=
  { track_map := [0], shuffle := false, length := 1, tracks := [trackA], repeats := 0 }

/-- A sample handle whose track pointer is `3` while it holds a single
playlist. -/
def handleA : Playhandle :=
  { current_track_index := 3
    current_playlist_index := 0
    has_reached_current_playlist_end := false
    has_reached_entire_end := false
    playlists := [playlistA]
    volume := 1
    paused := false }

/-- Wrapping twice composes: a wrapped decrement of a wrapped value is
the wrap of the combined subtraction. -/
lemma wrapIsize_sub_one (x : Int) : wrapIsize (wrapIsize x - 1) = wrapIsize (x - 1) := by
  unfold wrapIsize
  omega

/-- Wrapping a value strictly between `-2^64` and `0` never yields `0`. -/
lemma wrapIsize_ne_zero (x : Int) (h1 : -(2 ^ 64) < x) (h2 : x < 0) :
    wrapIsize x ≠ 0 := by
  unfold wrapIsize
  omega

/-- `n + 1` wrapping repeat decrements leave `wrapIsize (repeats - (n + 1))`
(playlist). -/
lemma playlist_repeats_iter_wrap (p : Playlist) (n : Nat) :
    (p.repeats_update_iter (n + 1)).repeats = wrapIsize (p.repeats - ((n : Int) + 1)) := by
  induction n with
  | zero => simp [Playlist.repeats_update_iter, Playlist.repeats_update]
  | succ m ih =>
    rw [show p.repeats_update_iter (m + 1 + 1) =
        (p.repeats_update_iter (m + 1)).repeats_update from rfl]
    simp only [Playlist.repeats_update]
    rw [ih, wrapIsize_sub_one]
    congr 1
    push_cast
    ring

/-- `n + 1` wrapping repeat decrements leave `wrapIsize (repeats - (n + 1))`
(track). -/
lemma track_repeats_iter_wrap (t : Track) (n : Nat) :
    (t.repeats_update_iter (n + 1)).repeats = wrapIsize (t.repeats - ((n : Int) + 1)) := by
  induction n with
  | zero => simp [Track.repeats_update_iter, Track.repeats_update]
  | succ m ih =>
    rw [show t.repeats_update_iter (m + 1 + 1) =
        (t.repeats_update_iter (m + 1)).repeats_update from rfl]
    simp only [Track.repeats_update]
    rw [ih, wrapIsize_sub_one]
    congr 1
    push_cast
    ring

/-- C5: the back-skip decrement `|old| old - (old > 0) as usize`
(`src/playback.rs` line 353, `src/in_out.rs` line 481) maps `0` to `0` and
`n > 0` to `n - 1`, and any number of back-skips issued at index `0`
leaves the pointer at `0`: it saturates, never underflows or wraps. -/
theorem C5_back_skip_saturates : ∀ (n k : Nat),
    decrement 0 = 0 ∧ (0 < n → decrement n = n - 1) ∧
    iterateSetter decrement k 0 = 0 := by
  intro n k
  refine ⟨rfl, fun hn => by simp [decrement, hn], ?_⟩
  induction k with
  | zero => rfl
  | succ m ih => simpa [iterateSetter, decrement] using ih

/-- Witness for C5 at `n = 3`, `k = 5`. -/
theorem C5_witness :
    decrement 0 = 0 ∧ decrement 3 = 3 - 1 ∧ iterateSetter decrement 5 0 = 0 :=
  ⟨(C5_back_skip_saturates 3 5).1,
   (C5_back_skip_saturates 3 5).2.1 (by decide),
   (C5_back_skip_saturates 3 5).2.2⟩

/-- `playlistA` with the infinite-repeat sentinel `-1`. -/
def playlistNeg : Playlist := { playlistA with repeats := -1 }

/-- `trackA` with the infinite-repeat sentinel `-1`. -/
def trackNeg : Track := { trackA with repeats := -1 }

/-- C7 counterexample: the repeat counter is a wrapping 64-bit `isize`,
so from `-1` the counter is exactly `0` after `2^64 - 1` decrements and
`repeats_can` is then false — "stays true after any number of
`repeats_update` decrements" fails at that concrete count. -/
theorem C7_counterexample :
    playlistNeg.repeats < 0 ∧
    (playlistNeg.repeats_update_iter (2 ^ 64 - 1)).repeats_can = false := by
  constructor
  · decide
  · have h := playlist_repeats_iter_wrap playlistNeg (2 ^ 64 - 2)
    have e1 : (2 ^ 64 - 2 : Nat) + 1 = 2 ^ 64 - 1 := by norm_num
    rw [e1] at h
    have hval : wrapIsize (playlistNeg.repeats - (((2 ^ 64 - 2 : Nat) : Int) + 1)) = 0 := by
      rw [show playlistNeg.repeats = -1 from rfl]
      rw [show ((-1 : Int) - (((2 ^ 64 - 2 : Nat) : Int) + 1)) = -(2 ^ 64) from by norm_num]
      norm_num [wrapIsize]
    simp only [Playlist.repeats_can]
    rw [h, hval]
    decide

/-- C7 (amended): under the wrapping 64-bit `isize` arithmetic of release
builds, a negative in-range repeat counter `r` keeps `repeats_can` true
after `n` `repeats_update` decrements for every `n < 2^64 + r` — the
counter first returns to zero only at `n = 2^64 + r ≥ 2^63` (with
`r = -1`: at `2^64 - 1`), a count beyond any feasible execution, so
"negative means repeat forever" holds for every feasible number of
repeats but not literally for all `n`.  Both playlist and track counters. -/
theorem C7_amended_wrapping_repeats : ∀ (p : Playlist) (t : Track) (n m : Nat),
    (-(2 ^ 63) ≤ p.repeats → p.repeats < 0 → (n : Int) < 2 ^ 64 + p.repeats →
      (p.repeats_update_iter n).repeats_can = true) ∧
    (-(2 ^ 63) ≤ t.repeats → t.repeats < 0 → (m : Int) < 2 ^ 64 + t.repeats →
      (t.repeats_update_iter m).repeats_can = true) := by
  intro p t n m
  constructor
  · intro hlo hneg hn
    cases n with
    | zero =>
      simp only [Playlist.repeats_update_iter, Playlist.repeats_can, bne_iff_ne, ne_eq,
        decide_eq_true_eq]
      omega
    | succ k =>
      have hx1 : -(2 ^ 64) < p.repeats - ((k : Int) + 1) := by
        push_cast at hn
        omega
      have hx2 : p.repeats - ((k : Int) + 1) < 0 := by omega
      simp only [playlist_repeats_iter_wrap, Playlist.repeats_can, bne_iff_ne, ne_eq,
        decide_eq_true_eq]
      exact wrapIsize_ne_zero _ hx1 hx2
  · intro hlo hneg hm
    cases m with
    | zero =>
      simp only [Track.repeats_update_iter, Track.repeats_can, bne_iff_ne, ne_eq,
        decide_eq_true_eq]
      omega
    | succ k =>
      have hx1 : -(2 ^ 64) < t.repeats - ((k : Int) + 1) := by
        push_cast at hm
        omega
      have hx2 : t.repeats - ((k : Int) + 1) < 0 := by omega
      simp only [track_repeats_iter_wrap, Track.repeats_can, bne_iff_ne, ne_eq,
        decide_eq_true_eq]
      exact wrapIsize_ne_zero _ hx1 hx2

/-- Witness for C7 (amended) at counters `-1` after `4` and `7`
decrements. -/
theorem C7_witness :
    (playlistNeg.repeats_update_iter 4).repeats_can = true ∧
    (trackNeg.repeats_update_iter 7).repeats_can = true :=
  ⟨(C7_amended_wrapping_repeats playlistNeg trackNeg 4 7).1
      (by decide) (by decide) (by decide),
   (C7_amended_wrapping_repeats playlistNeg trackNeg 4 7).2
      (by decide) (by decide) (by decide)⟩

/-- The clamped volume accessor always lands in `[0, 2]`. -/
lemma volume_get_bounds (h : Playhandle) :
    0 ≤ h.volume_get ∧ h.volume_get ≤ 2 := by
  unfold Playhandle.volume_get ratClamp
  split
  · exact ⟨le_refl 0, by norm_num⟩
  · split
    · exact ⟨by norm_num, le_refl 2⟩
    · constructor <;> [linarith [not_lt.mp (by assumption : ¬h.volume_get_raw < 0)];
        linarith [not_lt.mp (by assumption : ¬(2 : Rat) < h.volume_get_raw)]]

/-- C8: after any sequence of volume operations the clamped accessor
`volume_get` is in `[0.0, 2.0]`; `volume_mute` negates the raw volume
(`old + 2.0 * -old = -old`, exact), and muting twice restores the raw
volume to exactly its pre-mute value. -/
theorem C8_volume_clamped_and_mute_involutive : ∀ (h : Playhandle) (ops : List VolOp),
    (0 ≤ (h.volume_apply_seq ops).volume_get ∧ (h.volume_apply_seq ops).volume_get ≤ 2) ∧
    h.volume_mute.volume_get_raw = -h.volume_get_raw ∧
    h.volume_mute.volume_mute.volume_get_raw = h.volume_get_raw := by
  intro h ops
  refine ⟨volume_get_bounds _, ?_, ?_⟩
  · simp only [Playhandle.volume_mute, Playhandle.volume_set_raw, Playhandle.volume_get_raw]
    ring
  · simp only [Playhandle.volume_mute, Playhandle.volume_set_raw, Playhandle.volume_get_raw]
    ring

/-- C9: `Playhandle::tracks_count` indexes `playlists` with the current
track index, not the current playlist index: within bounds it yields the
track count of `playlists[current_track_index]`, and whenever
`current_track_index ≥ playlists.len()` the lookup is out of bounds even
when the current playlist index is valid. -/
theorem C9_tracks_count_uses_track_index : ∀ h : Playhandle,
    (h.current_track_index < h.playlists.length →
      h.tracks_count = some (h.playlistAt h.current_track_index).tracks_count) ∧
    (h.current_playlist_index < h.playlists.length →
      h.playlists.length ≤ h.current_track_index →
      h.tracks_count = none) := by
  intro h
  constructor
  · intro hlt
    simp [Playhandle.tracks_count, Playhandle.playlistAt,
      List.getElem?_eq_getElem hlt, List.getD]
  · intro _ hge
    simp [Playhandle.tracks_count, List.getElem?_eq_none hge]

/-- Witness for C9 on `handleA` (playlist pointer `0` valid, track
pointer `3` past the single playlist). -/
theorem C9_witness : handleA.tracks_count = none :=
  (C9_tracks_count_uses_track_index handleA).2 (by decide) (by decide)

/-- C1 counterexample: a `TrackBack` received `1500 ms` (at least one
second) after the track began is still mapped to `BackNone` by
`UnwrappedTrack::play` — the source threshold is `elapsed <= 2 s`, not
`1 s` — and applying it moves the track pointer from `5` to `4`, so the
claim "elapsed ≥ 1 s ⇒ the pointer does not move" is false. -/
theorem C1_counterexample :
    1000 ≤ 1500 ∧
    UnwrappedTrack.signal_instruction 1500 Signal.TrackBack = some Instruction.BackNone ∧
    UnwrappedPlaylist.apply_instruction 5 Instruction.BackNone = some 4 ∧
    (4 : Nat) ≠ 5 := by
  decide

/-- C1 (amended): the back-skip threshold of `UnwrappedTrack::play` is two
seconds, inclusive: with elapsed time over `2000 ms` both back-skip
signals become `HoldNoop` (the pointer does not move — a restart of the
current unit); with elapsed time at most `2000 ms`, `TrackBack` becomes
`BackNone` and `PlaylistBack` becomes `BackBack`, and `BackNone` with a
positive track pointer decreases it by exactly one (saturating at `0`).
In the newer `Track::play_through` the back-skip applies `decrement` to
the affected pointer with no elapsed-time condition at all. -/
theorem C1_amended_back_skip_threshold : ∀ (elapsed_ms idx : Nat) (h : Playhandle),
    (2000 < elapsed_ms →
      UnwrappedTrack.signal_instruction elapsed_ms Signal.TrackBack = some Instruction.HoldNoop ∧
      UnwrappedTrack.signal_instruction elapsed_ms Signal.PlaylistBack = some Instruction.HoldNoop ∧
      UnwrappedPlaylist.apply_instruction idx Instruction.HoldNoop = some idx) ∧
    (elapsed_ms ≤ 2000 →
      UnwrappedTrack.signal_instruction elapsed_ms Signal.TrackBack = some Instruction.BackNone ∧
      UnwrappedTrack.signal_instruction elapsed_ms Signal.PlaylistBack = some Instruction.BackBack) ∧
    (0 < idx → UnwrappedPlaylist.apply_instruction idx Instruction.BackNone = some (idx - 1)) ∧
    UnwrappedPlaylist.apply_instruction 0 Instruction.BackNone = some 0 ∧
    Track.handle_skip true false h = h.track_index_try_set decrement ∧
    Track.handle_skip false false h = h.playlist_index_try_set decrement := by
  intro elapsed_ms idx h
  refine ⟨?_, ?_, ?_, by decide, rfl, rfl⟩
  · intro hgt
    have : ¬elapsed_ms ≤ 2000 := by omega
    simp [UnwrappedTrack.signal_instruction, UnwrappedPlaylist.apply_instruction, this]
  · intro hle
    simp [UnwrappedTrack.signal_instruction, hle]
  · intro hpos
    simp [UnwrappedPlaylist.apply_instruction, hpos]

/-- Witness for C1 (amended) at elapsed times `2500 ms` and `500 ms` and
track pointer `5`. -/
theorem C1_witness :
    (UnwrappedTrack.signal_instruction 2500 Signal.TrackBack = some Instruction.HoldNoop ∧
     UnwrappedTrack.signal_instruction 2500 Signal.PlaylistBack = some Instruction.HoldNoop ∧
     UnwrappedPlaylist.apply_instruction 5 Instruction.HoldNoop = some 5) ∧
    (UnwrappedTrack.signal_instruction 500 Signal.TrackBack = some Instruction.BackNone ∧
     UnwrappedTrack.signal_instruction 500 Signal.PlaylistBack = some Instruction.BackBack) ∧
    UnwrappedPlaylist.apply_instruction 5 Instruction.BackNone = some (5 - 1) :=
  ⟨(C1_amended_back_skip_threshold 2500 5 handleA).1 (by decide),
   (C1_amended_back_skip_threshold 500 5 handleA).2.1 (by decide),
   (C1_amended_back_skip_threshold 500 5 handleA).2.2.1 (by decide)⟩

/-- C2 counterexample: on `handleA` (track pointer `3`, one playlist) the
call `playlist_index_try_set (|old| old + 1)` is out of bounds and indeed
returns `OutOfBounds` with the one-shot flag set and the playlist pointer
unmoved — but the track pointer has been reset from `3` to `0`, so the
claim's "no pointer is mutated" is false. -/
theorem C2_counterexample :
    (handleA.playlist_index_try_set (fun old => old + 1)).1 =
      Except.error VectorError.OutOfBounds ∧
    (handleA.playlist_index_try_set (fun old => old + 1)).2.has_reached_entire_end = true ∧
    (handleA.playlist_index_try_set (fun old => old + 1)).2.current_playlist_index =
      handleA.current_playlist_index ∧
    handleA.current_track_index = 3 ∧
    (handleA.playlist_index_try_set (fun old => old + 1)).2.current_track_index = 0 := by
  refine ⟨rfl, rfl, rfl, rfl, rfl⟩

/-- C2 (amended): the pointer-update contract of
`playlist_index_try_set` / `track_index_try_set`.  The proposed index is
computed from the current one and compared against the owning collection's
length; within bounds it is committed, out of bounds the corresponding
one-shot reached-end flag is set, `OutOfBounds` is returned, and the
pointer being set is not mutated.  However, `playlist_index_try_set`
resets the track index to `0` unconditionally before the bounds check, so
on its out-of-bounds path the track pointer is still reset (the claim's
"no pointer is mutated" holds only for the pointer being set). -/
theorem C2_amended_try_set_contract : ∀ (h : Playhandle) (setter : Nat → Nat),
    ((h.playlists_count ≤ setter h.current_playlist_index →
        h.playlist_index_try_set setter =
          (Except.error VectorError.OutOfBounds,
            { h with current_track_index := 0, has_reached_entire_end := true })) ∧
     (setter h.current_playlist_index < h.playlists_count →
        h.playlist_index_try_set setter =
          (Except.ok (),
            { h with current_track_index := 0,
                     current_playlist_index := setter h.current_playlist_index }))) ∧
    (h.current_playlist_index < h.playlists_count →
     (((h.playlistAt h.current_playlist_index).tracks_count ≤ setter h.current_track_index →
         h.track_index_try_set setter =
           (Except.error VectorError.OutOfBounds,
             { h with has_reached_current_playlist_end := true })) ∧
      (setter h.current_track_index < (h.playlistAt h.current_playlist_index).tracks_count →
         h.track_index_try_set setter =
           (Except.ok (), { h with current_track_index := setter h.current_track_index })))) := by
  intro h setter
  refine ⟨⟨?_, ?_⟩, ?_⟩
  · intro hge
    simp only [Playhandle.playlist_index_try_set, Playhandle.track_index_reset,
      Playhandle.playlists_count] at hge ⊢
    rw [if_pos hge]
  · intro hlt
    simp only [Playhandle.playlist_index_try_set, Playhandle.track_index_reset,
      Playhandle.playlists_count] at hlt ⊢
    rw [if_neg (by omega)]
  · intro hvalid
    have hcheck : h.playlist_index_check = none := by
      simp only [Playhandle.playlist_index_check]
      rw [if_neg (by omega)]
    constructor
    · intro hge
      simp only [Playhandle.track_index_try_set, Playhandle.playlist_index_get, hcheck]
      rw [if_pos hge]
    · intro hlt
      simp only [Playhandle.track_index_try_set, Playhandle.playlist_index_get, hcheck]
      rw [if_neg (by omega)]

/-- Witness for C2 (amended) on `handleA`: the out-of-bounds playlist
update and an in-bounds track update (after a reset of the track pointer). -/
theorem C2_witness :
    handleA.playlist_index_try_set (fun old => old + 1) =
      (Except.error VectorError.OutOfBounds,
        { handleA with current_track_index := 0, has_reached_entire_end := true }) ∧
    handleA.track_index_reset.track_index_try_set (fun old => old) =
      (Except.ok (), { handleA.track_index_reset with current_track_index := 0 }) :=
  ⟨(C2_amended_try_set_contract handleA (fun old => old + 1)).1.1 (by decide),
   ((C2_amended_try_set_contract handleA.track_index_reset (fun old => old)).2
      (by decide)).2 (by decide)⟩

/-- Whatever the inner track calls do, `Playlist::play_through` never
returns `SkipSkip` (the demotion at line 155 consumes it) and never
returns the out-of-bounds vector error (line 158 recovers it locally). -/
lemma playThroughAux_no_skipskip_no_oob (oracle : TrackOracle) (g : Nat → Nat → Nat)
    (ss : Bool) (idx : Nat) :
    ∀ (fuel : Nat) (phase : PTPhase) (oc : Nat) (h : Playhandle)
      (r : Except Error ControlFlow) (h' : Playhandle) (oc' : Nat),
      Playlist.playThroughAux oracle g ss idx fuel phase oc h = .finished r h' oc' →
      r ≠ .ok .SkipSkip ∧ r ≠ .error (.Vector .OutOfBounds) := by
  intro fuel
  induction fuel with
  | zero =>
    intro phase oc h r h' oc' hEq
    simp [Playlist.playThroughAux] at hEq
  | succ n ih =>
    intro phase oc h r h' oc' hEq
    cases phase with
    | loop =>
      simp only [Playlist.playThroughAux] at hEq
      split at hEq
      · split at hEq
        all_goals first
          | (injection hEq with h1 h2 h3
             subst h1
             exact ⟨by simp, by simp⟩)
          | exact ih _ _ _ _ _ _ hEq
      · exact ih _ _ _ _ _ _ hEq
    | after =>
      simp only [Playlist.playThroughAux] at hEq
      split at hEq
      · exact ih _ _ _ _ _ _ hEq
      · injection hEq with h1 h2 h3
        subst h1
        exact ⟨by simp, by simp⟩

/-- Whatever the inner track calls do, the defensive
`SkipSkip => unimplemented!()` branch of `Playhandle::all_playlists_play`
is never taken. -/
lemma all_playlists_play_never_panics (oracle : TrackOracle) (g : Nat → Nat → Nat)
    (ss : Bool) :
    ∀ (fuel oc : Nat) (h : Playhandle),
      Playhandle.all_playlists_play oracle g ss fuel oc h ≠ .panicked := by
  intro fuel
  induction fuel with
  | zero =>
    intro oc h
    simp [Playhandle.all_playlists_play]
  | succ n ih =>
    intro oc h
    simp only [Playhandle.all_playlists_play]
    split
    · split
      · simp
      · simp
      · simp
      · rename_i heq
        exact absurd rfl (playThroughAux_no_skipskip_no_oob _ _ _ _ _ _ _ _ _ _ _ heq).1
      · split
        · simp
        · split
          · simp
          · exact ih _ _
      · split
        · simp
        · split
          · simp
          · exact ih _ _
    · simp

/-- C3: `Playlist::play_through` never returns `SkipSkip`: when an inner
`Track::play_through` call yields `SkipSkip`, the playlist returns `Skip`
instead (demotion, `src/playback.rs` line 155); every returned result is
distinct from `SkipSkip`; and consequently the defensive
`SkipSkip => unimplemented!()` panic branch of
`Playhandle::all_playlists_play` (line 558) is unreachable for every
oracle, random stream, fuel and state. -/
theorem C3_skipskip_demoted :
    (∀ (oracle : TrackOracle) (g : Nat → Nat → Nat) (ss : Bool) (idx fuel oc : Nat)
       (h : Playhandle) (f : Playhandle → Playhandle),
       h.track_index_check = none → oracle oc = (.ok .SkipSkip, f) →
       Playlist.play_through oracle g ss idx (fuel + 1) oc h =
         .finished (.ok .Skip) (f h) (oc + 1)) ∧
    (∀ (oracle : TrackOracle) (g : Nat → Nat → Nat) (ss : Bool)
       (idx fuel : Nat) (phase : PTPhase) (oc : Nat) (h : Playhandle)
       (r : Except Error ControlFlow) (h' : Playhandle) (oc' : Nat),
       Playlist.playThroughAux oracle g ss idx fuel phase oc h = .finished r h' oc' →
       r ≠ .ok .SkipSkip) ∧
    (∀ (oracle : TrackOracle) (g : Nat → Nat → Nat) (ss : Bool) (fuel oc : Nat)
       (h : Playhandle),
       Playhandle.all_playlists_play oracle g ss fuel oc h ≠ .panicked) := by
  refine ⟨?_, ?_, ?_⟩
  · intro oracle g ss idx fuel oc h f hcheck horacle
    simp [Playlist.play_through, Playlist.playThroughAux, hcheck, horacle]
  · intro oracle g ss idx fuel phase oc h r h' oc' hEq
    exact (playThroughAux_no_skipskip_no_oob oracle g ss idx fuel phase oc h r h' oc' hEq).1
  · intro oracle g ss fuel oc h
    exact all_playlists_play_never_panics oracle g ss fuel oc h

/-- An inner-track oracle that always reports a level-2 skip. -/
def oracleSkipSkip : TrackOracle :=
  fun _ => (.ok .SkipSkip, id)

/-- An inner-track oracle that always reports the out-of-bounds vector
error. -/
def oracleOOB : TrackOracle :=
  fun _ => (.error (.Vector .OutOfBounds), id)

/-- The constantly-zero random stream family. -/
def gZero : Nat → Nat → Nat :=
  fun _ _ => 0

/-- `handleA` with its track pointer at `0` (both pointers in bounds). -/
def handleB : Playhandle :=
  { handleA with current_track_index := 0 }

/-- Witness for C3: a playlist whose current track reports `SkipSkip`
returns `Skip` out of the playlist layer. -/
theorem C3_witness :
    Playlist.play_through oracleSkipSkip gZero false 0 1 0 handleB =
      .finished (.ok .Skip) handleB 1 :=
  C3_skipskip_demoted.1 oracleSkipSkip gZero false 0 0 0 handleB id rfl rfl

/-- C4: `Playlist::play_through` recovers out-of-bounds track-pointer
errors locally: an inner `Err(Vector(OutOfBounds))` resets the track
pointer to `0` and transfers control to the after-loop repeat-or-advance
logic (`src/playback.rs` lines 158-162), and no execution of
`Playlist::play_through` returns the out-of-bounds vector error to its
caller. -/
theorem C4_oob_recovered_locally :
    (∀ (oracle : TrackOracle) (g : Nat → Nat → Nat) (ss : Bool) (idx fuel oc : Nat)
       (h : Playhandle) (f : Playhandle → Playhandle),
       h.track_index_check = none → oracle oc = (.error (.Vector .OutOfBounds), f) →
       Playlist.play_through oracle g ss idx (fuel + 1) oc h =
         Playlist.playThroughAux oracle g ss idx fuel .after (oc + 1)
           ((f h).track_index_reset)) ∧
    (∀ (oracle : TrackOracle) (g : Nat → Nat → Nat) (ss : Bool)
       (idx fuel : Nat) (phase : PTPhase) (oc : Nat) (h : Playhandle)
       (r : Except Error ControlFlow) (h' : Playhandle) (oc' : Nat),
       Playlist.playThroughAux oracle g ss idx fuel phase oc h = .finished r h' oc' →
       r ≠ .error (.Vector .OutOfBounds)) := by
  constructor
  · intro oracle g ss idx fuel oc h f hcheck horacle
    simp [Playlist.play_through, Playlist.playThroughAux, hcheck, horacle]
  · intro oracle g ss idx fuel phase oc h r h' oc' hEq
    exact (playThroughAux_no_skipskip_no_oob oracle g ss idx fuel phase oc h r h' oc' hEq).2

/-- Witness for C4: with the current track in bounds and the inner track
reporting `OutOfBounds`, the playlist resets the track pointer and falls
through to its repeat-or-advance logic. -/
theorem C4_witness :
    Playlist.play_through oracleOOB gZero false 0 1 0 handleB =
      Playlist.playThroughAux oracleOOB gZero false 0 0 .after 1
        handleB.track_index_reset :=
  C4_oob_recovered_locally.1 oracleOOB gZero false 0 0 0 handleB id rfl rfl

/-- A swap leaves the length unchanged. -/
lemma listSwap_length (l : List Nat) (i j : Nat) : (listSwap l i j).length = l.length := by
  simp [listSwap]

/-- An in-bounds swap is a permutation of the original list. -/
lemma listSwap_perm (l : List Nat) (i j : Nat) (hi : i < l.length) (hj : j < l.length) :
    List.Perm (listSwap l i j) l := by
  rw [List.perm_iff_count]
  intro a
  have hj1 : j < (l.set i (l.getD j 0)).length := by simpa using hj
  have hgd_j : l.getD j 0 = l[j] := by
    simp [List.getD, List.getElem?_eq_getElem hj]
  have hgd_i : l.getD i 0 = l[i] := by
    simp [List.getD, List.getElem?_eq_getElem hi]
  rw [listSwap, List.count_set _ _ _ _ hj1, List.count_set _ _ _ _ hi]
  have hset_j : (l.set i (l.getD j 0))[j] = l[j] := by
    rcases eq_or_ne i j with h | h
    · subst h
      simp [List.getD, List.getElem?_eq_getElem hi]
    · simp [List.getElem_set_ne h]
  rw [hset_j, hgd_j, hgd_i]
  set A := (if l[i] == a then (1 : Nat) else 0) with hA_def
  set B := (if l[j] == a then (1 : Nat) else 0) with hB_def
  have hA : A ≤ l.count a := by
    rw [hA_def]
    split
    · rename_i hbeq
      have hmem : a ∈ l := by
        have := List.getElem_mem hi
        rwa [eq_of_beq hbeq] at this
      simpa using List.count_pos_iff.mpr hmem
    · exact Nat.zero_le _
  omega

/-- Folding single in-bounds swaps over a list of indices permutes. -/
lemma foldl_swap_single_perm (g : Nat → Nat) :
    ∀ (ixs : List Nat) (m : List Nat), (∀ i ∈ ixs, i < m.length) →
      List.Perm (ixs.foldl (fun m i => listSwap m i (g i % (i + 1))) m) m := by
  intro ixs
  induction ixs with
  | nil =>
    intro m _
    simp
  | cons i rest ih =>
    intro m hbound
    have hi : i < m.length := hbound i (by simp)
    have hj : g i % (i + 1) < m.length :=
      lt_of_le_of_lt (Nat.le_of_lt_succ (Nat.mod_lt _ (by omega))) hi
    have hperm1 : List.Perm (listSwap m i (g i % (i + 1))) m := listSwap_perm m _ _ hi hj
    have hlen : (listSwap m i (g i % (i + 1))).length = m.length := listSwap_length m _ _
    simp only [List.foldl_cons]
    refine (ih _ ?_).trans hperm1
    intro x hx
    rw [hlen]
    exact hbound x (by simp [hx])

/-- The external generator shuffle permutes the list. -/
lemma rngShuffle_perm (g : Nat → Nat) (l : List Nat) :
    List.Perm (rngShuffle g l) l :=
  foldl_swap_single_perm g (List.range l.length) l
    (fun _ hi => List.mem_range.mp hi)

/-- Folding the double swaps of `Playlist::shuffle`'s explicit loop over
in-range indices permutes any list of the right length. -/
lemma foldl_swap_double_perm (g : Nat → Nat) (n : Nat) :
    ∀ (ixs : List Nat), (∀ i ∈ ixs, i < n) →
      ∀ (m : List Nat), m.length = n →
      List.Perm
        (ixs.foldl
          (fun m index =>
            listSwap (listSwap m index (g (3 * index + 1) % (index + 1))) index
              (index + g (3 * index + 2) % (n - index)))
          m) m := by
  intro ixs
  induction ixs with
  | nil =>
    intro _ m _
    simp
  | cons i rest ih =>
    intro hbound m hm
    have hi : i < m.length := by rw [hm]; exact hbound i (by simp)
    have hj1 : g (3 * i + 1) % (i + 1) < m.length :=
      lt_of_le_of_lt (Nat.le_of_lt_succ (Nat.mod_lt _ (by omega))) hi
    have hperm1 : List.Perm (listSwap m i (g (3 * i + 1) % (i + 1))) m :=
      listSwap_perm m _ _ hi hj1
    have hlen1 : (listSwap m i (g (3 * i + 1) % (i + 1))).length = m.length :=
      listSwap_length m _ _
    have hi2 : i < (listSwap m i (g (3 * i + 1) % (i + 1))).length := by rwa [hlen1]
    have hj2 : i + g (3 * i + 2) % (n - i) < (listSwap m i (g (3 * i + 1) % (i + 1))).length := by
      rw [hlen1, hm]
      have hin : i < n := hbound i (by simp)
      have := Nat.mod_lt (g (3 * i + 2)) (y := n - i) (by omega)
      omega
    have hperm2 :
        List.Perm
          (listSwap (listSwap m i (g (3 * i + 1) % (i + 1))) i
            (i + g (3 * i + 2) % (n - i)))
          (listSwap m i (g (3 * i + 1) % (i + 1))) :=
      listSwap_perm _ _ _ hi2 hj2
    have hlen2 :
        (listSwap (listSwap m i (g (3 * i + 1) % (i + 1))) i
          (i + g (3 * i + 2) % (n - i))).length = n := by
      rw [listSwap_length, hlen1, hm]
    simp only [List.foldl_cons]
    refine (ih ?_ _ hlen2).trans (hperm2.trans hperm1)
    intro x hx
    exact hbound x (by simp [hx])

/-- `Playlist::shuffle` sends a `track_map` that is a permutation of
`0..tracks.len()` to another such permutation. -/
lemma shuffle'_perm (g : Nat → Nat) (p : Playlist)
    (hperm : List.Perm p.track_map (List.range p.tracks.length))
    (hlen : p.length = p.tracks.length) :
    List.Perm (p.shuffle' g).track_map (List.range p.tracks.length) := by
  have hmaplen : p.track_map.length = p.tracks.length := by
    simpa using hperm.length_eq
  have h1 : List.Perm (rngShuffle (fun n => g (3 * n)) p.track_map) p.track_map :=
    rngShuffle_perm _ _
  have h1len : (rngShuffle (fun n => g (3 * n)) p.track_map).length = p.length := by
    rw [h1.length_eq, hmaplen, hlen]
  have h2 := foldl_swap_double_perm g p.length (List.range p.length)
    (fun i hi => List.mem_range.mp hi)
    (rngShuffle (fun n => g (3 * n)) p.track_map) h1len
  exact h2.trans (h1.trans hperm)

/-- A failing track conversion carries a `fmt_path` error. -/
lemma Track.tryFrom_error (fp : FmtPath) (t : SerDeTrack) (e : Error)
    (h : Track.tryFrom fp t = .error e) : ∃ pe : FmtPathError, e = pe.toError := by
  unfold Track.tryFrom at h
  split at h
  · rename_i pe _
    exact ⟨pe, by injection h with h'; exact h'.symm⟩
  · simp at h

/-- On success, the enumerate-and-convert stage yields the consecutive
indices `i, i+1, …` as first components, one pair per source track. -/
lemma tracksCollect_ok (fp : FmtPath) :
    ∀ (song : List SerDeTrack) (i : Nat) (l : List (Nat × Track)),
      tracksCollect fp i song = .ok l →
      l.map Prod.fst = List.range' i song.length ∧ l.length = song.length := by
  intro song
  induction song with
  | nil =>
    intro i l h
    simp only [tracksCollect] at h
    injection h with h'
    subst h'
    simp
  | cons t rest ih =>
    intro i l h
    simp only [tracksCollect] at h
    split at h
    · simp at h
    · split at h
      · simp at h
      · rename_i l0 hrec
        injection h with h'
        subst h'
        obtain ⟨h1, h2⟩ := ih (i + 1) l0 hrec
        refine ⟨?_, by simpa using h2⟩
        simp [h1, List.range'_succ]

/-- A failing conversion stage carries a `fmt_path` error. -/
lemma tracksCollect_error (fp : FmtPath) :
    ∀ (song : List SerDeTrack) (i : Nat) (e : Error),
      tracksCollect fp i song = .error e → ∃ pe : FmtPathError, e = pe.toError := by
  intro song
  induction song with
  | nil =>
    intro i e h
    simp [tracksCollect] at h
  | cons t rest ih =>
    intro i e h
    simp only [tracksCollect] at h
    split at h
    · rename_i e0 htrack
      injection h with h'
      subst h'
      exact Track.tryFrom_error fp t e0 htrack
    · split at h
      · rename_i e0 hrec
        injection h with h'
        subst h'
        exact ih (i + 1) e0 hrec
      · simp at h

/-- Facts about every successfully constructed playlist: a nonempty track
list, the identity `track_map`, and `length = tracks.len()`. -/
lemma Playlist.tryFrom_ok (fp : FmtPath) (sp : SerDePlaylist) (pl : Playlist)
    (h : Playlist.tryFrom fp sp = .ok pl) :
    pl.tracks ≠ [] ∧ pl.track_map = List.range pl.tracks.length ∧
    pl.length = pl.tracks.length ∧ pl.tracks.length = sp.song.length := by
  unfold Playlist.tryFrom at h
  split at h
  · simp at h
  · rename_i tuple htuple
    dsimp only at h
    split at h
    · simp at h
    · rename_i hnotempty
      injection h with h'
      subst h'
      obtain ⟨hmap, hlen⟩ := tracksCollect_ok fp sp.song 0 tuple htuple
      have hfst : tuple.unzip.1 = List.range sp.song.length := by
        rw [List.unzip_fst, hmap, List.range_eq_range']
      have hsnd_len : tuple.unzip.2.length = sp.song.length := by
        rw [List.unzip_snd, List.length_map]
        exact hlen
      have hlen0 : sp.song.length ≠ 0 := by
        intro h0
        apply hnotempty
        rw [List.isEmpty_iff, hfst, h0]
        simp
      refine ⟨?_, ?_, ?_, ?_⟩
      · intro hnil
        dsimp only at hnil
        apply hlen0
        rw [← hsnd_len, hnil]
        rfl
      · show tuple.unzip.1 = List.range tuple.unzip.2.length
        rw [hfst, hsnd_len]
      · rfl
      · exact hsnd_len

/-- C10: converting a `SerDePlaylist` fails with the `Empty` vector error
exactly when the descriptor's track list is empty, and every successful
conversion yields a playlist with at least one track, the identity
`track_map = 0..tracks.len()`, and stored `length = tracks.len()`. -/
theorem C10_descriptor_conversion : ∀ (fp : FmtPath) (sp : SerDePlaylist),
    (Playlist.tryFrom fp sp = .error (.Vector .Empty) ↔ sp.song = []) ∧
    (∀ pl : Playlist, Playlist.tryFrom fp sp = .ok pl →
      pl.tracks ≠ [] ∧ pl.track_map = List.range pl.tracks.length ∧
      pl.length = pl.tracks.length ∧ pl.tracks.length = sp.song.length) := by
  intro fp sp
  constructor
  · constructor
    · intro h
      unfold Playlist.tryFrom at h
      split at h
      · rename_i e herr
        obtain ⟨pe, rfl⟩ := tracksCollect_error fp sp.song 0 e herr
        injection h with h'
        cases pe <;> simp [FmtPathError.toError] at h'
      · rename_i tuple htuple
        dsimp only at h
        split at h
        · rename_i hempty
          obtain ⟨hmap, hlen⟩ := tracksCollect_ok fp sp.song 0 tuple htuple
          rw [List.isEmpty_iff, List.unzip_fst, hmap] at hempty
          exact List.length_eq_zero.mp (List.range'_eq_nil.mp hempty)
        · simp at h
    · intro h
      simp [Playlist.tryFrom, tracksCollect, h]
  · intro pl h
    exact Playlist.tryFrom_ok fp sp pl h

/-- C6: `track_map` is always a permutation of `0..tracks.len()`: at
construction it is the identity permutation, and `Playlist::shuffle`
(modelled with an arbitrary generator oracle) sends any permutation of
`0..tracks.len()` to another one — same length, each index exactly once,
no duplicates, no dropped entries. -/
theorem C6_track_map_permutation :
    (∀ (fp : FmtPath) (sp : SerDePlaylist) (pl : Playlist),
       Playlist.tryFrom fp sp = .ok pl →
       pl.track_map = List.range pl.tracks.length ∧ pl.length = pl.tracks.length) ∧
    (∀ (g : Nat → Nat) (p : Playlist),
       List.Perm p.track_map (List.range p.tracks.length) →
       p.length = p.tracks.length →
       List.Perm (p.shuffle' g).track_map (List.range p.tracks.length) ∧
       (p.shuffle' g).track_map.length = p.tracks.length ∧
       (p.shuffle' g).track_map.Nodup) := by
  constructor
  · intro fp sp pl h
    obtain ⟨_, h2, h3, _⟩ := Playlist.tryFrom_ok fp sp pl h
    exact ⟨h2, h3⟩
  · intro g p hperm hlen
    have hres := shuffle'_perm g p hperm hlen
    refine ⟨hres, by simpa using hres.length_eq, ?_⟩
    exact hres.symm.nodup (List.nodup_range _)

/-- A two-track playlist with a non-identity (but valid) `track_map`. -/
def playlistB : Playlist :=
  { track_map := [1, 0], shuffle := true, length := 2,
    tracks := [trackA, trackA], repeats := 0 }

/-- Witness for C6: shuffling `playlistB` with the zero generator yields a
permutation of `0..2`. -/
theorem C6_witness :
    List.Perm (playlistB.shuffle' (fun _ => 0)).track_map (List.range 2) ∧
    (playlistB.shuffle' (fun _ => 0)).track_map.length = 2 ∧
    (playlistB.shuffle' (fun _ => 0)).track_map.Nodup :=
  C6_track_map_permutation.2 (fun _ => 0) playlistB (by decide) rfl

/-- The trivially succeeding path oracle. -/
def fpOk : FmtPath := fun s => .ok s

/-- A one-track playlist descriptor. -/
def spB : SerDePlaylist :=
  { song := [{ file := "a", time := none }], time := none, vary := none }

/-- The playlist `spB` converts to. -/
def plB : Playlist :=
  { track_map := [0], shuffle := true, length := 1,
    tracks := [{ file_path := "a", repeats := 0 }], repeats := 0 }

/-- Witness for C10: converting the one-track descriptor `spB` succeeds
and the resulting playlist satisfies the construction invariants. -/
theorem C10_witness :
    plB.tracks ≠ [] ∧ plB.track_map = List.range plB.tracks.length ∧
    plB.length = plB.tracks.length ∧ plB.tracks.length = spB.song.length :=
  (C10_descriptor_conversion fpOk spB).2 plB rfl

end Quing
